import Mathlib

/-!
Shallow embedding of `src/source/crypto.c` (the N-API hash/HMAC binding).

The binding's own logic (argument branching, truncation, cleanup at each
return site) is translated directly from the C source. The algorithm
capability layer (`aws_hash` / `aws_hmac` from aws-c-cal) and the N-API
marshaling primitives are external to this repository's sources; they are
modelled from the spec's capability interface where noted.
-/

/-- Errors surfaced to the caller: `typeError` for `napi_throw_type_error`,
`napiError` for binding-level `napi_throw_error`, and `invalidState` for
the aws-level invalid-state error surfaced via `aws_napi_throw_last_error`. -/
inductive CryptoError
  | typeError
  | napiError
  | invalidState
  deriving DecidableEq

/-- A host-runtime (JavaScript) value as seen at the binding boundary:
`num k` is a number carrying a uint32, `bytes bs` is a string or array
marshalable into a byte buffer. -/
inductive NapiValue
  | null
  | undefined
  | num (k : Nat)
  | bytes (bs : List Nat)
  | other
  deriving DecidableEq

/-- `aws_napi_is_null_or_undefined`: true exactly on null and undefined. -/
def aws_napi_is_null_or_undefined : NapiValue → Bool
  | NapiValue.null => true
  | NapiValue.undefined => true
  | _ => false

/-- `napi_get_value_uint32`: succeeds only on a number value
(N-API returns `napi_number_expected` on anything else, including
null and undefined). -/
def napi_get_value_uint32 : NapiValue → Option Nat
  | NapiValue.num k => some k
  | _ => none

/-- `aws_byte_buf_init_from_napi`: marshals a string or array into an owned
byte buffer; fails on any other value kind. -/
def aws_byte_buf_init_from_napi : NapiValue → Option (List Nat)
  | NapiValue.bytes bs => some bs
  | _ => none

/-- Lifecycle state of an algorithm context (spec section 4.1). -/
inductive CtxState
  | active
  | finalized
  | destroyed
  deriving DecidableEq

/-- Modelled from the spec: the algorithm capability object `struct aws_hash`
lives in aws-c-cal, outside this repository's `src/`. Per the spec's
capability interface it carries a fixed natural `digest_size`, an opaque
accumulator (here: the bytes fed so far), the pure digest function of the
accumulated message, and a lifecycle state. -/
structure aws_hash where
  digest_size : Nat
  digestFn : List Nat → List Nat
  accumulated : List Nat
  state : CtxState

/-- Modelled from the spec: `aws_hash_update` appends the cursor's bytes to
the running computation; it fails with an invalid-state error (and mutates
nothing) unless the context is active. -/
def aws_hash_update (h : aws_hash) (cur : List Nat) : Except CryptoError aws_hash :=
  if h.state = CtxState.active then
    Except.ok { h with accumulated := h.accumulated ++ cur }
  else Except.error CryptoError.invalidState

/-- Modelled from the spec: `aws_hash_finalize` destructively consumes an
active context, emitting the first `truncate_to` bytes of the natural
digest of the accumulated message (spec section 4.3: emit
`bytes[0 : min(n, r)]`; a request of 0 is legal and yields an empty
digest). On a non-active context it fails with an invalid-state error. -/
def aws_hash_finalize (h : aws_hash) (truncate_to : Nat) :
    Except CryptoError (aws_hash × List Nat) :=
  if h.state = CtxState.active then
    Except.ok ({ h with state := CtxState.finalized },
               (h.digestFn h.accumulated).take truncate_to)
  else Except.error CryptoError.invalidState

/-- Modelled from the spec: the keyed capability object `struct aws_hmac`
(aws-c-cal), structurally identical to `aws_hash`; the secret was consumed
at construction and lives only in the opaque accumulator. -/
structure aws_hmac where
  digest_size : Nat
  digestFn : List Nat → List Nat
  accumulated : List Nat
  state : CtxState

/-- Modelled from the spec: `aws_hmac_update`, mirror of `aws_hash_update`. -/
def aws_hmac_update (h : aws_hmac) (cur : List Nat) : Except CryptoError aws_hmac :=
  if h.state = CtxState.active then
    Except.ok { h with accumulated := h.accumulated ++ cur }
  else Except.error CryptoError.invalidState

/-- Modelled from the spec: `aws_hmac_finalize`, mirror of `aws_hash_finalize`. -/
def aws_hmac_finalize (h : aws_hmac) (truncate_to : Nat) :
    Except CryptoError (aws_hmac × List Nat) :=
  if h.state = CtxState.active then
    Except.ok ({ h with state := CtxState.finalized },
               (h.digestFn h.accumulated).take truncate_to)
  else Except.error CryptoError.invalidState

/-- `hash_update` (crypto.c:71-104): marshals the data argument; on marshal
failure throws a type error; otherwise runs `aws_hash_update` and surfaces
its error, if any, via `aws_napi_throw_last_error`. Returns the (possibly
updated) context together with the pending error. -/
def hash_update (h : aws_hash) (arg : NapiValue) : aws_hash × Option CryptoError :=
  match aws_byte_buf_init_from_napi arg with
  | none => (h, some CryptoError.typeError)
  | some to_hash =>
    match aws_hash_update h to_hash with
    | Except.error e => (h, some e)
    | Except.ok h2 => (h2, none)

/-- `hmac_update` (crypto.c:216-249): mirror of `hash_update`. -/
def hmac_update (h : aws_hmac) (arg : NapiValue) : aws_hmac × Option CryptoError :=
  match aws_byte_buf_init_from_napi arg with
  | none => (h, some CryptoError.typeError)
  | some to_hash =>
    match aws_hmac_update h to_hash with
    | Except.error e => (h, some e)
    | Except.ok h2 => (h2, none)

/-- `hash_digest` (crypto.c:106-159): starts from the natural
`digest_size`; if the truncation argument is NOT null/undefined it reads a
uint32 from it (throwing a type error on failure) and clamps
`digest_size` down to it; then finalizes into a buffer of that size.
Output-buffer allocation (`napi_create_arraybuffer`/dataview) is modelled
as succeeding. -/
def hash_digest (h : aws_hash) (arg : NapiValue) :
    Except CryptoError (aws_hash × List Nat) :=
  let n := h.digest_size
  let sized : Except CryptoError Nat :=
    if ! aws_napi_is_null_or_undefined arg then
      match napi_get_value_uint32 arg with
      | none => Except.error CryptoError.typeError
      | some truncate_to => Except.ok (if n > truncate_to then truncate_to else n)
    else Except.ok n
  match sized with
  | Except.error e => Except.error e
  | Except.ok ds =>
    match aws_hash_finalize h ds with
    | Except.error e => Except.error e
    | Except.ok out => Except.ok out

/-- `hmac_digest` (crypto.c:251-304): like `hash_digest` but the
null/undefined test at crypto.c:271 is NOT negated — the truncation branch
is entered exactly when the argument IS null or undefined. -/
def hmac_digest (h : aws_hmac) (arg : NapiValue) :
    Except CryptoError (aws_hmac × List Nat) :=
  let n := h.digest_size
  let sized : Except CryptoError Nat :=
    if aws_napi_is_null_or_undefined arg then
      match napi_get_value_uint32 arg with
      | none => Except.error CryptoError.typeError
      | some truncate_to => Except.ok (if n > truncate_to then truncate_to else n)
    else Except.ok n
  match sized with
  | Except.error e => Except.error e
  | Except.ok ds =>
    match aws_hmac_finalize h ds with
    | Except.error e => Except.error e
    | Except.ok out => Except.ok out

/-- Memory holding the transient secret buffer: `live bs` is an allocated
buffer holding bytes `bs`; `freed bs` is deallocated memory whose residual
contents are `bs` (freeing does not change the bytes). -/
inductive BufMem
  | live (bs : List Nat)
  | freed (residual : List Nat)
  deriving DecidableEq

/-- `aws_byte_buf_clean_up`: deallocates without overwriting, so the bytes
remain as residual contents of the freed memory. -/
def aws_byte_buf_clean_up : BufMem → BufMem
  | BufMem.live bs => BufMem.freed bs
  | m => m

/-- `aws_byte_buf_clean_up_secure`: overwrites every byte with zero, then
deallocates. -/
def aws_byte_buf_clean_up_secure : BufMem → BufMem
  | BufMem.live bs => BufMem.freed (List.replicate bs.length 0)
  | m => m

/-- The residual byte contents of the transient buffer's memory, whether
still allocated or already freed. -/
def BufMem.contents : BufMem → List Nat
  | BufMem.live bs => bs
  | BufMem.freed bs => bs

/-- Fate of the algorithm context allocated by a create call: still
allocated (`registered` records whether a reclamation finalizer was
attached to it), or destroyed. -/
inductive CtxFate
  | live (registered : Bool)
  | destroyed
  deriving DecidableEq

/-- Environment outcomes for an unkeyed create call: whether
`aws_md5_new` / `aws_sha256_new` returns a context, and whether
`napi_create_external` succeeds. -/
structure HashNewEnv where
  alloc_ok : Bool
  register_ok : Bool
  deriving DecidableEq

/-- Observable outcome of an unkeyed create call: the context's fate
(`none` if never allocated), the returned handle, the pending error, and
how many times the destroy routine ran during the call. -/
structure HashNewResult where
  ctx : Option CtxFate
  handle : Option Unit
  error : Option CryptoError
  destroys : Nat
  deriving DecidableEq

/-- `hash_md5_new` (crypto.c:37-52): if `aws_md5_new` fails, return NULL
with no error thrown; if `napi_create_external` fails, throw a binding
error and return the (NULL) external — the allocated hash is neither
destroyed nor registered; on success return the external, whose registered
finalizer is `s_hash_finalize`. -/
def hash_md5_new (env : HashNewEnv) : HashNewResult :=
  if ! env.alloc_ok then
    { ctx := none, handle := none, error := none, destroys := 0 }
  else if ! env.register_ok then
    { ctx := some (CtxFate.live false), handle := none,
      error := some CryptoError.napiError, destroys := 0 }
  else
    { ctx := some (CtxFate.live true), handle := some (),
      error := none, destroys := 0 }

/-- `hash_sha256_new` (crypto.c:54-69): identical structure to
`hash_md5_new` with `aws_sha256_new` as the allocator. -/
def hash_sha256_new (env : HashNewEnv) : HashNewResult :=
  if ! env.alloc_ok then
    { ctx := none, handle := none, error := none, destroys := 0 }
  else if ! env.register_ok then
    { ctx := some (CtxFate.live false), handle := none,
      error := some CryptoError.napiError, destroys := 0 }
  else
    { ctx := some (CtxFate.live true), handle := some (),
      error := none, destroys := 0 }

/-- Environment outcomes for the keyed create call: whether the secret
marshals, whether `aws_sha256_hmac_new` returns a context, and whether
`napi_create_external` succeeds. -/
structure HmacNewEnv where
  marshal_ok : Bool
  alloc_ok : Bool
  register_ok : Bool
  deriving DecidableEq

/-- Observable outcome of the keyed create call: final memory state of the
transient secret buffer (`none` if it was never initialized), the
context's fate, the returned handle, the pending error, and how many times
the destroy routine ran during the call. -/
structure HmacNewResult where
  secret_buf : Option BufMem
  ctx : Option CtxFate
  handle : Option Unit
  error : Option CryptoError
  destroys : Nat
  deriving DecidableEq

/-- `hmac_sha256_new` (crypto.c:177-214): marshal the secret (type error on
failure); if `aws_sha256_hmac_new` fails, `aws_byte_buf_clean_up` the
secret and return NULL with no error thrown; if `napi_create_external`
fails, throw a binding error, `aws_hmac_destroy` the hmac and
`aws_byte_buf_clean_up_secure` the secret; on success return the external
(secret buffer left untouched), whose registered finalizer is
`s_hmac_finalize`. -/
def hmac_sha256_new (secret : List Nat) (env : HmacNewEnv) : HmacNewResult :=
  if ! env.marshal_ok then
    { secret_buf := none, ctx := none, handle := none,
      error := some CryptoError.typeError, destroys := 0 }
  else if ! env.alloc_ok then
    { secret_buf := some (aws_byte_buf_clean_up (BufMem.live secret)),
      ctx := none, handle := none, error := none, destroys := 0 }
  else if ! env.register_ok then
    { secret_buf := some (aws_byte_buf_clean_up_secure (BufMem.live secret)),
      ctx := some CtxFate.destroyed, handle := none,
      error := some CryptoError.napiError, destroys := 1 }
  else
    { secret_buf := some (BufMem.live secret),
      ctx := some (CtxFate.live true), handle := some (),
      error := none, destroys := 0 }

/-- Reclamation of an unkeyed create result: N-API invokes the registered
finalizer `s_hash_finalize` (crypto.c:26-35) at most once, and only if
`napi_create_external` succeeded; the finalizer calls `aws_hash_destroy`. -/
def reclaim_hash (r : HashNewResult) : HashNewResult :=
  match r.ctx with
  | some (CtxFate.live true) =>
    { r with ctx := some CtxFate.destroyed, destroys := r.destroys + 1 }
  | _ => r

/-- Reclamation of a keyed create result: N-API invokes the registered
finalizer `s_hmac_finalize` (crypto.c:166-175) at most once, and only if
`napi_create_external` succeeded; the finalizer calls `aws_hmac_destroy`. -/
def reclaim_hmac (r : HmacNewResult) : HmacNewResult :=
  match r.ctx with
  | some (CtxFate.live true) =>
    { r with ctx := some CtxFate.destroyed, destroys := r.destroys + 1 }
  | _ => r

/-- Sample contexts used to evaluate the binding at concrete inputs. -/
def activeHash32 : aws_hash :=
  { digest_size := 32, digestFn := fun _ => List.replicate 32 1,
    accumulated := [], state := CtxState.active }

def finalizedHash32 : aws_hash :=
  { digest_size := 32, digestFn := fun _ => List.replicate 32 1,
    accumulated := [], state := CtxState.finalized }

def activeHmac32 : aws_hmac :=
  { digest_size := 32, digestFn := fun _ => List.replicate 32 2,
    accumulated := [], state := CtxState.active }

def finalizedHmac32 : aws_hmac :=
  { digest_size := 32, digestFn := fun _ => List.replicate 32 2,
    accumulated := [], state := CtxState.finalized }

/-- C1: evaluating the keyed create at the failing inputs. On the
all-success path the transient secret buffer is left live, still holding
the original secret bytes [1, 2, 3]; on HMAC-construction failure it is
merely freed, with the secret bytes as residual contents; only on
handle-registration failure is every byte overwritten with zeros. So the
claim that every exit path overwrites the buffer fails on the code. -/
theorem hmac_new_secret_not_erased :
    (hmac_sha256_new [1, 2, 3] ⟨true, true, true⟩).secret_buf
        = some (BufMem.live [1, 2, 3]) ∧
    (hmac_sha256_new [1, 2, 3] ⟨true, false, true⟩).secret_buf
        = some (BufMem.freed [1, 2, 3]) ∧
    (hmac_sha256_new [1, 2, 3] ⟨true, true, false⟩).secret_buf
        = some (BufMem.freed [0, 0, 0]) :=
  ⟨rfl, rfl, rfl⟩

/-- C2: evaluating both digest operations with the truncate_to argument
absent. The keyed engine's null/undefined test is inverted, so
`hmac_digest` on an active context with undefined (or null) enters the
truncation branch, fails to read a uint32, and throws a type error instead
of succeeding; the unkeyed `hash_digest` succeeds and emits the full
32-byte natural digest as the claim states. -/
theorem hmac_digest_absent_arg_fails :
    hmac_digest activeHmac32 NapiValue.undefined = Except.error CryptoError.typeError ∧
    hmac_digest activeHmac32 NapiValue.null = Except.error CryptoError.typeError ∧
    hash_digest activeHash32 NapiValue.undefined
      = Except.ok ({ activeHash32 with state := CtxState.finalized },
                   List.replicate 32 1) :=
  ⟨rfl, rfl, rfl⟩

/-- C3: evaluating both digest operations with truncate_to = 5 provided on
contexts of digest_size 32. The keyed engine skips the clamping branch and
emits all 32 bytes instead of the claimed first 5; the unkeyed engine
clamps correctly and emits the first 5 bytes of its natural digest. -/
theorem hmac_digest_ignores_provided_truncation :
    hmac_digest activeHmac32 (NapiValue.num 5)
      = Except.ok ({ activeHmac32 with state := CtxState.finalized },
                   List.replicate 32 2) ∧
    hash_digest activeHash32 (NapiValue.num 5)
      = Except.ok ({ activeHash32 with state := CtxState.finalized },
                   List.replicate 5 1) :=
  ⟨rfl, rfl⟩

/-- C4 counterexample: when `aws_md5_new` fails, `hash_md5_new` returns
NULL with no error raised at all — no AlgorithmInitError is surfaced to
the caller, contrary to the claim. -/
theorem hash_md5_new_alloc_failure_silent :
    (hash_md5_new ⟨false, true⟩).error = none ∧
    (hash_md5_new ⟨false, true⟩).handle = none :=
  ⟨rfl, rfl⟩

/-- C4 (amended): on allocation/initialization failure every create
operation returns null (seen as undefined by the caller) with no pending
error; no error value is surfaced synchronously on that path. -/
theorem create_alloc_failure_returns_silently (r : Bool) (s : List Nat) :
    (hash_md5_new ⟨false, r⟩).error = none ∧
    (hash_md5_new ⟨false, r⟩).handle = none ∧
    (hash_sha256_new ⟨false, r⟩).error = none ∧
    (hash_sha256_new ⟨false, r⟩).handle = none ∧
    (hmac_sha256_new s ⟨true, false, r⟩).error = none ∧
    (hmac_sha256_new s ⟨true, false, r⟩).handle = none := by
  simp [hash_md5_new, hash_sha256_new, hmac_sha256_new]

/-- Witness for the amended C4 theorem at concrete inputs. -/
theorem create_alloc_failure_returns_silently_witness :
    (hash_md5_new ⟨false, true⟩).error = none ∧
    (hash_md5_new ⟨false, true⟩).handle = none ∧
    (hash_sha256_new ⟨false, true⟩).error = none ∧
    (hash_sha256_new ⟨false, true⟩).handle = none ∧
    (hmac_sha256_new [1, 2, 3] ⟨true, false, true⟩).error = none ∧
    (hmac_sha256_new [1, 2, 3] ⟨true, false, true⟩).handle = none :=
  create_alloc_failure_returns_silently true [1, 2, 3]

/-- C5: evaluating the create operations on their failure paths. When
`napi_create_external` fails, `hash_md5_new` throws the registration error
but leaves the freshly allocated hash context alive and unregistered —
the rollback the claim requires never happens. The keyed create, on
HMAC-construction failure, frees the secret buffer without erasing it
(the secret bytes [9, 9] remain as residual contents). -/
theorem hash_md5_new_register_failure_leaks :
    (hash_md5_new ⟨true, false⟩).ctx = some (CtxFate.live false) ∧
    (hash_md5_new ⟨true, false⟩).error = some CryptoError.napiError ∧
    (hmac_sha256_new [9, 9] ⟨true, false, true⟩).secret_buf
      = some (BufMem.freed [9, 9]) :=
  ⟨rfl, rfl, rfl⟩

/-- C6: evaluating a second digest call and use-after-finalize. On an
already-finalized keyed context, `hmac_digest` with an absent truncate_to
throws a type error from the inverted truncation branch — not the claimed
InvalidStateError (with a numeric truncate_to it does fail with the
invalid-state error). The unkeyed engine behaves as claimed: `hash_update`
on a finalized context fails with the invalid-state error and returns the
context unchanged, and a second `hash_digest` fails the same way. -/
theorem hmac_second_digest_wrong_error :
    hmac_digest finalizedHmac32 NapiValue.undefined = Except.error CryptoError.typeError ∧
    hmac_digest finalizedHmac32 (NapiValue.num 32) = Except.error CryptoError.invalidState ∧
    hash_update finalizedHash32 (NapiValue.bytes [1, 2])
      = (finalizedHash32, some CryptoError.invalidState) ∧
    hash_digest finalizedHash32 NapiValue.undefined = Except.error CryptoError.invalidState :=
  ⟨rfl, rfl, rfl, rfl⟩

/-- Two successive updates leave the context exactly as one update of the
concatenation does. -/
theorem hash_update_append (h : aws_hash) (a b : List Nat)
    (hact : h.state = CtxState.active) :
    (hash_update (hash_update h (NapiValue.bytes a)).1 (NapiValue.bytes b)).1
      = (hash_update h (NapiValue.bytes (a ++ b))).1 := by
  simp [hash_update, aws_byte_buf_init_from_napi, aws_hash_update, hact]

/-- C7: feeding an active context with update(a) then update(b) and then
digesting yields exactly what one update(a ++ b) followed by digesting
yields — incremental updates are equivalent to a single update of the
concatenation. -/
theorem hash_update_concat (h : aws_hash) (a b : List Nat)
    (hact : h.state = CtxState.active) :
    hash_digest
        (hash_update (hash_update h (NapiValue.bytes a)).1 (NapiValue.bytes b)).1
        NapiValue.undefined
      = hash_digest (hash_update h (NapiValue.bytes (a ++ b))).1 NapiValue.undefined :=
  congrArg (fun c => hash_digest c NapiValue.undefined) (hash_update_append h a b hact)

/-- Witness for C7 at a concrete context and byte sequences. -/
theorem hash_update_concat_witness :
    activeHash32.state = CtxState.active ∧
    hash_digest
        (hash_update (hash_update activeHash32 (NapiValue.bytes [1])).1 (NapiValue.bytes [2])).1
        NapiValue.undefined
      = hash_digest (hash_update activeHash32 (NapiValue.bytes [1, 2])).1 NapiValue.undefined :=
  ⟨rfl, hash_update_concat activeHash32 [1] [2] rfl⟩

/-- C8: evaluating both digest operations with truncate_to = 0 on active
contexts of digest_size 32. The unkeyed engine returns an empty digest as
the claim states, but the keyed engine — because a provided 0 is not null
or undefined and the test is inverted — skips the truncation branch and
returns the full 32-byte digest, so the claim fails for keyed contexts. -/
theorem hmac_digest_truncate_zero_not_empty :
    hmac_digest activeHmac32 (NapiValue.num 0)
      = Except.ok ({ activeHmac32 with state := CtxState.finalized },
                   List.replicate 32 2) ∧
    hash_digest activeHash32 (NapiValue.num 0)
      = Except.ok ({ activeHash32 with state := CtxState.finalized }, []) :=
  ⟨rfl, rfl⟩

/-- C9: evaluating the destroy count on the leak path. When
`napi_create_external` fails in `hash_md5_new`, no finalizer was
registered and create's cleanup does not destroy the hash, so even after
reclamation activity the destroy routine has run zero times on that
context — it is never destroyed, contradicting the claimed exactly-once. -/
theorem hash_md5_new_destroy_never_runs :
    (hash_md5_new ⟨true, false⟩).destroys = 0 ∧
    (reclaim_hash (hash_md5_new ⟨true, false⟩)).destroys = 0 ∧
    (reclaim_hash (hash_md5_new ⟨true, false⟩)).ctx = some (CtxFate.live false) :=
  ⟨rfl, rfl, rfl⟩

/-- C10: whenever the truncate_to argument is provided as a numeric value,
`hmac_digest` on an active context skips the truncation branch entirely
and emits the full natural digest, independent of the requested value k;
the clamping comparison is only reachable when the argument is null or
undefined. -/
theorem hmac_digest_provided_skips_truncation (h : aws_hmac) (k : Nat)
    (hact : h.state = CtxState.active)
    (hlen : (h.digestFn h.accumulated).length = h.digest_size) :
    hmac_digest h (NapiValue.num k)
      = Except.ok ({ h with state := CtxState.finalized }, h.digestFn h.accumulated) := by
  simp [hmac_digest, aws_napi_is_null_or_undefined, aws_hmac_finalize, hact, hlen]

/-- Witness for C10 at a concrete context and requested value. -/
theorem hmac_digest_provided_skips_truncation_witness :
    activeHmac32.state = CtxState.active ∧
    (activeHmac32.digestFn activeHmac32.accumulated).length = activeHmac32.digest_size ∧
    hmac_digest activeHmac32 (NapiValue.num 7)
      = Except.ok ({ activeHmac32 with state := CtxState.finalized },
                   activeHmac32.digestFn activeHmac32.accumulated) :=
  ⟨rfl, rfl, hmac_digest_provided_skips_truncation activeHmac32 7 rfl rfl⟩
